import Mathlib

set_option maxRecDepth 8000

/-
  Verification development for mundialis/r.change.stats
  (src/r.change.stats.py, GRASS GIS add-on computing pixelwise change
  statistics from two discrete classification rasters).

  Shallow embedding notes:
  * Category values are modelled as integers (the script handles them as
    decimal string tokens coming from `r.category`; their numeric values are
    what enters the rank/code arithmetic via `int(...)`).  The lexicographic
    string sort of line 198 differs from the numeric sort only in the order
    of the universe; none of the properties proved below depends on which
    total order is used, only on the universe being a duplicate-free list.
  * Ranks, transition codes and output ordinals are natural numbers.
  * External GRASS collaborators (r.reclass, r.mapcalc, r.category, r.stats)
    are modelled at the interface described in spec section 6: reclassification
    is a lookup in the parallel rule lists the script writes, the r.mapcalc
    call is the per-pixel expression the script passes on line 223, and
    listing orders returned by r.category (and the iteration order of the
    Python `set` on line 168) are taken as explicit list parameters, since the
    script depends on whatever enumeration order those collaborators return.
  * Fatal errors (grass.fatal) are modelled as `Except.error`; warnings
    (grass.warning) as returned string lists.  The script contains exactly one
    fatal call (line 137, wrong input count).
-/

namespace RChangeStats

/-- Python `max` over a list of naturals (used for `max(out_vals)` on
line 311 of src/r.change.stats.py; `out_vals` there is never empty because the
"0:No Change" legend entry always exists). -/
def list_max (l : List Nat) : Nat := l.foldl max 0

/-- Lines 154-160 of src/r.change.stats.py: the designated ignore value is
looked up in the category lists of both inputs; if absent, a warning is
emitted and `ignore_val_exists` stays `False`.  The returned Bool is
`ignore_val_exists`; the returned list holds the emitted warning texts
(the branch never calls grass.fatal, hence the total, Except-free type). -/
def ignore_check (cats_in1 cats_in2 : List ℤ) (str_val : ℤ) : Bool × List String :=
  if str_val ∈ cats_in1 ∨ str_val ∈ cats_in2 then (true, [])
  else (false, ["Value to ignore (" ++ toString str_val ++ ") does not exist in input maps"])

/-- Lines 164-167 of src/r.change.stats.py: `labels_in1 = [cat.split("\t")[1] ...]`
zipped with the category values.  A category whose listing carries no label
makes the list comprehension raise (caught by the `except` on line 187); this
is modelled by the input carrying `Option String` labels and the result being
`none` when any label is missing. -/
def read_labels (tmp : List (ℤ × Option String)) : Option (List (ℤ × String)) :=
  tmp.mapM (fun p => (p.2).map (fun s => (p.1, s)))

/-- Line 168 of src/r.change.stats.py: `labellist = list(set(labellist1 + labellist2))`.
The Python set iterates in an unspecified (hash-dependent) order; `dedup` is one
duplicate-free enumeration of that set.  Every place whose result depends on the
enumeration order takes the enumeration itself as a parameter instead. -/
def labellist (labellist1 labellist2 : List (ℤ × String)) : List (ℤ × String) :=
  (labellist1 ++ labellist2).dedup

/-- Lines 170-172 of src/r.change.stats.py: the ambiguity test compares the
number of distinct labels with the number of distinct categories in the
combined (category, label) pair set. -/
def ambiguous (ll : List (ℤ × String)) : Bool :=
  decide ((ll.map Prod.snd).dedup.length ≠ (ll.map Prod.fst).dedup.length)

/-- Lines 162-194 of src/r.change.stats.py: the whole label-mode block.
Returns the final value of the `labels` variable together with the warnings
emitted.  The `try`/`except Exception` around the block means a label-reading
failure yields `labels = False` plus a warning and never an abort, which the
total (Except-free) return type reflects. -/
def label_step (flag : Bool) (tmp1 tmp2 : List (ℤ × Option String)) : Bool × List String :=
  if flag then
    match read_labels tmp1, read_labels tmp2 with
    | some l1, some l2 =>
      if ambiguous (labellist l1 l2) then
        (false, ["Input raster labels are ambiguous,using raster categories for result raster labels"])
      else (true, [])
    | _, _ =>
      (false, ["Input rasters are not (entirely) labelled, using raster categories for result raster labels"])
  else (false, [])

/-- Lines 197-198 of src/r.change.stats.py:
`all_cats = list(set(cats_in1 + cats_in2)); all_cats.sort()`. -/
def all_cats_of (cats_in1 cats_in2 : List ℤ) : List ℤ :=
  ((cats_in1 ++ cats_in2).dedup).insertionSort (fun a b => a ≤ b)

/-- Line 201 of src/r.change.stats.py: `new_cats = np.arange(1, len(all_cats) + 1, 1)`,
the dense 1-based ranks. -/
def new_cats (all_cats : List ℤ) : List Nat :=
  (List.range all_cats.length).map (fun k => k + 1)

/-- Line 202 of src/r.change.stats.py: `new_cats_t1000 = [1000 * int(item) for item in new_cats]`. -/
def new_cats_t1000 (all_cats : List ℤ) : List Nat :=
  (new_cats all_cats).map (fun r => 1000 * r)

/-- Lines 205-207 of src/r.change.stats.py: `new_ignore_val = new_cats[all_cats.index(str_val)]`
(only evaluated when the ignore value exists in the universe). -/
def new_ignore_val (all_cats : List ℤ) (str_val : ℤ) : Nat :=
  (new_cats all_cats).getD (all_cats.indexOf str_val) 0

/-- Modelled from the spec: the external `reclassify` collaborator of
section 6 applied to the rule list written by `reclassify` (lines 119-127 of
src/r.change.stats.py, rules `values_in[i] = values_out[i]`): a cell holding
`v` becomes `values_out[values_in.index(v)]`; unmapped values are absent
(NULL) in the output. -/
def reclass (values_in : List ℤ) (values_out : List Nat) (v : ℤ) : Option Nat :=
  values_out[values_in.indexOf v]?

/-- Lines 135-137 and 201-213 of src/r.change.stats.py: `main` aborts
(grass.fatal) when the input list does not hold exactly two maps, and
otherwise proceeds to build both reclassification rule tables.  No other
grass.fatal call exists in the script: in particular nothing checks the
universe size against the rank bound 1000 before the tables are built and the
rasters written. -/
def build_reclass_tables (input : List String) (all_cats : List ℤ) :
    Except String (List Nat × List Nat) :=
  if input.length ≠ 2 then Except.error "Input must consist of two raster maps"
  else Except.ok (new_cats all_cats, new_cats_t1000 all_cats)

/-- GRASS_EPSILON from grass.lib.gis (1.0e-15), imported on line 105 of
src/r.change.stats.py. -/
def GRASS_EPSILON : ℚ := 1 / 10 ^ 15

/-- Lines 221-226 of src/r.change.stats.py: the r.mapcalc expression
`if( abs(input1 - input2) < GRASS_EPSILON, 0, map1_recl + map2_recl)`
per pixel: `v1, v2` are the original category values of the two inputs,
`m1, m2` the corresponding cells of the two reclassified maps. -/
def change_expr (v1 v2 : ℤ) (m1 m2 : Nat) : Nat :=
  if |(v1 : ℚ) - (v2 : ℚ)| < GRASS_EPSILON then 0 else m1 + m2

/-- The whole per-pixel encoding pipeline (lines 209-226 of
src/r.change.stats.py): reclassify the pixel of map 1 by `new_cats`, the pixel
of map 2 by `new_cats_t1000`, then apply the r.mapcalc expression.  `none`
models a NULL cell produced by an unmapped category. -/
def pixel_code (all_cats : List ℤ) (c1 c2 : ℤ) : Option Nat := do
  let m1 ← reclass all_cats (new_cats all_cats) c1
  let m2 ← reclass all_cats (new_cats_t1000 all_cats) c2
  pure (change_expr c1 c2 m1 m2)

/-- Lines 254 and 261-263 of src/r.change.stats.py:
`changed_from_reclass = int(item) % 1000` and
`changed_from = all_cats[[i for i in new_cats].index(changed_from_reclass)]`.
`none` models the ValueError/IndexError branch of a failed lookup. -/
def decode_from (all_cats : List ℤ) (item : Nat) : Option ℤ :=
  all_cats[(new_cats all_cats).indexOf (item % 1000)]?

/-- Lines 255 and 264-266 of src/r.change.stats.py:
`changed_to_reclass = int((int(item) - changed_from_reclass) / 1000)` and
`changed_to = all_cats[[i for i in new_cats].index(changed_to_reclass)]`. -/
def decode_to (all_cats : List ℤ) (item : Nat) : Option ℤ :=
  all_cats[(new_cats all_cats).indexOf ((item - item % 1000) / 1000)]?

/-- Lines 250-260 of src/r.change.stats.py: the loop collecting
`cats_to_ignore` from the listed codes of the change-detection raster.
`ign` is the guard `options["ignore_value"] and ignore_val_exists is True`,
`niv` is `new_ignore_val`. -/
def cats_to_ignore (ign : Bool) (niv : Nat) (cats_cd : List Nat) : List Nat :=
  cats_cd.filter
    (fun item => decide (item ≠ 0 ∧ ign = true ∧
      (item % 1000 = niv ∨ (item - item % 1000) / 1000 = niv)))

/-- Lines 268-275 of src/r.change.stats.py:
`labellist_classtext[labellist_classnum.index(changed_from)]` — the label of
the first pair of the enumerated label set whose category matches.  The
default "" models the out-of-range access after a failed `.index`. -/
def lookup_label (ll : List (ℤ × String)) (c : ℤ) : String :=
  (ll.map Prod.snd).getD ((ll.map Prod.fst).indexOf c) ""

/-- Lines 252-280 of src/r.change.stats.py: the legend text built for one
non-zero listed code. -/
def cd_label_of (all_cats : List ℤ) (labels : Bool) (ll : List (ℤ × String)) (item : Nat) : String :=
  let changed_from := (decode_from all_cats item).getD 0
  let changed_to := (decode_to all_cats item).getD 0
  let fromText := if labels then lookup_label ll changed_from else toString changed_from
  let toText := if labels then lookup_label ll changed_to else toString changed_to
  toString item ++ ":Change from " ++ fromText ++ " to " ++ toText

/-- Lines 250-281 of src/r.change.stats.py: the full `cd_labels` list,
starting with `"0:No Change"`, followed by one entry per non-zero listed code
in listing order. -/
def cd_labels (all_cats : List ℤ) (labels : Bool) (ll : List (ℤ × String))
    (cats_cd : List Nat) : List String :=
  "0:No Change" :: (cats_cd.filter (fun item => decide (item ≠ 0))).map
    (cd_label_of all_cats labels ll)

/-- Line 296 of src/r.change.stats.py: the listed codes of the labelled
change-detection raster (`ovl` is the listing returned by r.category, a code
together with its attached label, in listing order). -/
def old_vals (ovl : List (Nat × String)) : List Nat := ovl.map Prod.fst

/-- Line 297 of src/r.change.stats.py. -/
def old_labels (ovl : List (Nat × String)) : List String := ovl.map Prod.snd

/-- Line 298 of src/r.change.stats.py: `out_vals = range(len(old_vals_labels))`. -/
def out_vals (n : Nat) : List Nat := List.range n

/-- Lines 299-301 of src/r.change.stats.py: the reclass rule targets
`"%s  %s" % (out_val, old_labels[idx])`, modelled as (new value, label)
pairs: position `idx` maps the idx-th listed code to ordinal `idx`. -/
def out_vals_labels (ovl : List (Nat × String)) : List (Nat × String) :=
  (old_labels ovl).enum

/-- Line 311 of src/r.change.stats.py: `ignore_out_cat = max(out_vals) + 10`. -/
def ignore_out_cat (n : Nat) : Nat := list_max (out_vals n) + 10

/-- Line 310 of src/r.change.stats.py:
`old_vals_ignore_idcs = [old_vals.index(cat) for cat in cats_to_ignore]`. -/
def old_vals_ignore_idcs (ov : List Nat) (cti : List Nat) : List Nat :=
  cti.map (fun cat => ov.indexOf cat)

/-- Lines 313-315 of src/r.change.stats.py: the overriding rule target
`"%d areas ignored" % ignore_out_cat` plus the optional `" (%s)" % ignore_label`. -/
def ignore_entry (sentinel : Nat) (ignore_label : Option String) : Nat × String :=
  (sentinel, "areas ignored" ++ (match ignore_label with
    | some s => " (" ++ s ++ ")"
    | none => ""))

/-- Lines 298-317 of src/r.change.stats.py: the final reclassification table
sent to r.reclass — ordinal `idx` for the idx-th listed code, then (under the
ignore guard `ign`) every index of `old_vals_ignore_idcs` overwritten with the
shared sentinel entry. -/
def remap_table (ovl : List (Nat × String)) (cti : List Nat) (ign : Bool)
    (ignore_label : Option String) : List (Nat × String) :=
  if ign then
    (old_vals_ignore_idcs (old_vals ovl) cti).foldl
      (fun acc i => acc.set i (ignore_entry (ignore_out_cat ovl.length) ignore_label))
      (out_vals_labels ovl)
  else out_vals_labels ovl

/-- Lines 325-333 of src/r.change.stats.py: the color rules — `"0 200:200:200"`
prepended (r.colors.out does not show category 0), and under the ignore guard
the rule of the sentinel category replaced by `"250:250:250"`.  A rule is
modelled as (category, color) with the source's `color_rule.split(" ")[0]`
comparison being the category component. -/
def colors_new (ign : Bool) (sentinel : Nat) (colors_tmp : List (Nat × String)) :
    List (Nat × String) :=
  ((0 : Nat), "200:200:200") :: colors_tmp.map
    (fun rule => if ign ∧ rule.1 = sentinel then (rule.1, "250:250:250") else rule)

/-- Line 340 of src/r.change.stats.py. -/
def headerline : String := "raster value|label|percentage of covered area"

/-- Modelled from the spec: the external area-statistics collaborator
(section 6; `r.stats -lp separator=pipe` on lines 341-345) writes one row per
category value actually present, `value|label|percentage`. -/
def r_stats_rows (stats : List (Nat × String × String)) : List String :=
  stats.map (fun s => toString s.1 ++ "|" ++ s.2.1 ++ "|" ++ s.2.2)

/-- Lines 352-361 of src/r.change.stats.py: the csv file is read back as rows,
`reader.insert(0, headerline)` prepends the header, and the rows are written
back unchanged (the comma-based csv reader/writer round trip is the identity
on pipe-delimited rows free of the quote character). -/
def stats_file (rows : List String) : List String := rows.insertIdx 0 headerline

/-! ### Helper lemmas -/

theorem list_max_range (n : Nat) : list_max (List.range n) = n - 1 := by
  induction n with
  | zero => rfl
  | succ m ih =>
    have h : list_max (List.range (m + 1)) = max (list_max (List.range m)) m := by
      simp [list_max, List.range_succ, List.foldl_append]
    rw [h, ih]
    omega

theorem indexOf_of_getElem_nodup {α : Type} [DecidableEq α] :
    ∀ (l : List α), l.Nodup → ∀ i (h : i < l.length), l.indexOf l[i] = i := by
  intro l
  induction l with
  | nil => intro _ i h; simp at h
  | cons a t ih =>
    intro hnd i h
    cases i with
    | zero => simp [List.indexOf_cons]
    | succ j =>
      have hj : j < t.length := by simpa using h
      have ha : a ∉ t := (List.nodup_cons.mp hnd).1
      have hg : (a :: t)[j + 1] = t[j] := by simp
      have hne : (a == t[j]) = false := by
        rw [beq_eq_false_iff_ne]
        intro he
        exact ha (he ▸ List.getElem_mem hj)
      rw [hg, List.indexOf_cons, hne, cond_false,
        ih (List.nodup_cons.mp hnd).2 j hj]

theorem indexOf_map_range {α : Type} [DecidableEq α] {f : ℕ → α}
    (hf : Function.Injective f) {n k : ℕ} (hk : k < n) :
    ((List.range n).map f).indexOf (f k) = k := by
  have hlen : k < ((List.range n).map f).length := by simpa using hk
  have hnd : ((List.range n).map f).Nodup := (List.nodup_range n).map hf
  have hget? : ((List.range n).map f)[k]? = some (f k) := by
    simp [List.getElem?_map, List.getElem?_range hk]
  have hsome : some (((List.range n).map f)[k]) = some (f k) := by
    rw [← List.getElem?_eq_getElem hlen, hget?]
  have hget := Option.some.inj hsome
  have h := indexOf_of_getElem_nodup _ hnd k hlen
  rw [hget] at h
  exact h

theorem new_cats_indexOf (all_cats : List ℤ) {k : ℕ} (hk : k < all_cats.length) :
    (new_cats all_cats).indexOf (k + 1) = k :=
  indexOf_map_range (fun a b hab => by omega) hk

theorem new_cats_getElem? (all_cats : List ℤ) {k : ℕ} (hk : k < all_cats.length) :
    (new_cats all_cats)[k]? = some (k + 1) := by
  simp [new_cats, List.getElem?_map, List.getElem?_range hk]

theorem new_cats_t1000_getElem? (all_cats : List ℤ) {k : ℕ} (hk : k < all_cats.length) :
    (new_cats_t1000 all_cats)[k]? = some (1000 * (k + 1)) := by
  simp [new_cats_t1000, List.getElem?_map, new_cats_getElem? all_cats hk]

theorem reclass_rank (all_cats : List ℤ) {c : ℤ} (hc : c ∈ all_cats) :
    reclass all_cats (new_cats all_cats) c = some (all_cats.indexOf c + 1) := by
  have hlt : all_cats.indexOf c < all_cats.length := List.indexOf_lt_length.mpr hc
  simp [reclass, new_cats_getElem? all_cats hlt]

theorem reclass_rank_t1000 (all_cats : List ℤ) {c : ℤ} (hc : c ∈ all_cats) :
    reclass all_cats (new_cats_t1000 all_cats) c = some (1000 * (all_cats.indexOf c + 1)) := by
  have hlt : all_cats.indexOf c < all_cats.length := List.indexOf_lt_length.mpr hc
  simp [reclass, new_cats_t1000_getElem? all_cats hlt]

theorem change_expr_self (v : ℤ) (m1 m2 : Nat) : change_expr v v m1 m2 = 0 := by
  have h : |(v : ℚ) - (v : ℚ)| < GRASS_EPSILON := by
    simp only [sub_self, abs_zero, GRASS_EPSILON]
    norm_num
  unfold change_expr
  rw [if_pos h]

theorem change_expr_ne {v1 v2 : ℤ} (h : v1 ≠ v2) (m1 m2 : Nat) :
    change_expr v1 v2 m1 m2 = m1 + m2 := by
  have h1 : (1 : ℚ) ≤ |(v1 : ℚ) - (v2 : ℚ)| := by
    have hz : (1 : ℤ) ≤ |v1 - v2| := Int.one_le_abs (sub_ne_zero.mpr h)
    calc (1 : ℚ) = ((1 : ℤ) : ℚ) := by norm_num
    _ ≤ ((|v1 - v2| : ℤ) : ℚ) := by exact_mod_cast hz
    _ = |(v1 : ℚ) - (v2 : ℚ)| := by push_cast; ring_nf
  have hlt : ¬ |(v1 : ℚ) - (v2 : ℚ)| < GRASS_EPSILON := by
    intro hcon
    have : GRASS_EPSILON < 1 := by norm_num [GRASS_EPSILON]
    linarith
  simp [change_expr, hlt]

theorem code_mod {fr : Nat} (tr : Nat) (h : fr < 1000) : (fr + 1000 * tr) % 1000 = fr := by
  rw [Nat.add_mul_mod_self_left, Nat.mod_eq_of_lt h]

theorem code_div {fr : Nat} (tr : Nat) (h : fr < 1000) :
    (fr + 1000 * tr - (fr + 1000 * tr) % 1000) / 1000 = tr := by
  rw [code_mod tr h, Nat.add_sub_cancel_left, Nat.mul_div_cancel_left tr (by norm_num)]

theorem decode_from_code (all_cats : List ℤ) {i : ℕ} (j : ℕ)
    (hi : i < all_cats.length) (hlen : all_cats.length < 1000) :
    decode_from all_cats ((i + 1) + 1000 * (j + 1)) = some all_cats[i] := by
  have h1 : i + 1 < 1000 := by omega
  unfold decode_from
  rw [code_mod (j + 1) h1, new_cats_indexOf all_cats hi, List.getElem?_eq_getElem hi]

theorem decode_to_code (all_cats : List ℤ) (i : ℕ) {j : ℕ}
    (hi : i < all_cats.length) (hj : j < all_cats.length) (hlen : all_cats.length < 1000) :
    decode_to all_cats ((i + 1) + 1000 * (j + 1)) = some all_cats[j] := by
  have h1 : i + 1 < 1000 := by omega
  unfold decode_to
  rw [code_div (j + 1) h1, new_cats_indexOf all_cats hj, List.getElem?_eq_getElem hj]

theorem foldl_set_getElem? {α : Type} (e : α) :
    ∀ (idcs : List Nat) (acc : List α) (j : Nat),
      (idcs.foldl (fun a i => a.set i e) acc)[j]? =
        if j ∈ idcs ∧ j < acc.length then some e else acc[j]? := by
  intro idcs
  induction idcs with
  | nil => intro acc j; simp
  | cons i rest ih =>
    intro acc j
    rw [List.foldl_cons, ih (acc.set i e) j]
    rw [List.length_set, List.getElem?_set]
    by_cases hlen : j < acc.length
    · by_cases hjr : j ∈ rest
      · simp [hjr, hlen, List.mem_cons]
      · by_cases hij : i = j
        · subst hij
          simp [hjr, hlen, List.mem_cons]
        · have hji : ¬ j = i := fun hh => hij hh.symm
          simp [hjr, hlen, hij, hji, List.mem_cons]
    · have hnone : acc[j]? = none := List.getElem?_eq_none (by omega)
      by_cases hij : i = j
      · subst hij
        simp [hlen, hnone]
      · simp [hlen, hij, hnone]

theorem out_vals_labels_length (ovl : List (Nat × String)) :
    (out_vals_labels ovl).length = ovl.length := by
  simp [out_vals_labels, old_labels]

theorem out_vals_labels_getElem? (ovl : List (Nat × String)) {i : Nat} (h : i < ovl.length) :
    (out_vals_labels ovl)[i]? = some (i, (old_labels ovl).getD i "") := by
  have hl : i < (old_labels ovl).length := by simpa [old_labels] using h
  rw [out_vals_labels, List.getElem?_enum, List.getElem?_eq_getElem hl,
    List.getD_eq_getElem (old_labels ovl) "" hl]
  rfl

theorem zero_not_mem_cats_to_ignore (ign : Bool) (niv : Nat) (cats_cd : List Nat) :
    0 ∉ cats_to_ignore ign niv cats_cd := by
  intro h
  have := List.of_mem_filter h
  simp at this

theorem remap_table_getElem? (ovl : List (Nat × String)) (cti : List Nat)
    (lbl : Option String) (hnd : (old_vals ovl).Nodup) {i : Nat} {c : Nat}
    (hc : (old_vals ovl)[i]? = some c) :
    (remap_table ovl cti true lbl)[i]? =
      if c ∈ cti then some (ignore_entry (ignore_out_cat ovl.length) lbl)
      else some (i, (old_labels ovl).getD i "") := by
  have hi' : i < (old_vals ovl).length := by
    by_contra hcon
    rw [List.getElem?_eq_none (by omega)] at hc
    exact Option.noConfusion hc
  have hi : i < ovl.length := by simpa [old_vals] using hi'
  have hcv : (old_vals ovl)[i] = c := by
    have h := List.getElem?_eq_getElem hi'
    rw [h] at hc
    exact Option.some.inj hc
  have hstep : (remap_table ovl cti true lbl)[i]? =
      if i ∈ old_vals_ignore_idcs (old_vals ovl) cti ∧ i < (out_vals_labels ovl).length
      then some (ignore_entry (ignore_out_cat ovl.length) lbl)
      else (out_vals_labels ovl)[i]? := by
    unfold remap_table
    rw [if_pos rfl]
    exact foldl_set_getElem? _ _ _ i
  have hmem : i ∈ old_vals_ignore_idcs (old_vals ovl) cti ↔ c ∈ cti := by
    constructor
    · intro him
      obtain ⟨cat, hcat, hidx⟩ := List.mem_map.mp him
      by_cases hcm : cat ∈ old_vals ovl
      · have h1 : (old_vals ovl)[(old_vals ovl).indexOf cat]? = some cat := by
          rw [List.getElem?_eq_getElem (List.indexOf_lt_length.mpr hcm),
            List.getElem_indexOf]
        rw [hidx] at h1
        rw [hc] at h1
        rw [Option.some.inj h1]
        exact hcat
      · have h2 : (old_vals ovl).indexOf cat = (old_vals ovl).length :=
          List.indexOf_eq_length.mpr hcm
        omega
    · intro hcm
      have hidx : (old_vals ovl).indexOf c = i := by
        rw [← hcv]
        exact indexOf_of_getElem_nodup _ hnd i hi'
      exact List.mem_map.mpr ⟨c, hcm, hidx⟩
  rw [hstep, out_vals_labels_length]
  by_cases hcti : c ∈ cti
  · rw [if_pos ⟨hmem.mpr hcti, hi⟩, if_pos hcti]
  · rw [if_neg (fun hand => hcti (hmem.mp hand.1)), if_neg hcti,
      out_vals_labels_getElem? ovl hi]

/-! ### Claim C3 -/

/-- The list of final ordinals of the non-ignored discovered codes, in
discovery order (positions of `old_vals` whose code is not in the ignored
set, paired with the first component of the reclass rule target written for
that position). -/
def non_ignored_ordinals (ovl : List (Nat × String)) (cti : List Nat)
    (tbl : List (Nat × String)) : List Nat :=
  (((old_vals ovl).zip (tbl.map Prod.fst)).filter
    (fun p => decide (p.1 ∉ cti))).map Prod.snd

/-- Claim C3, counterexample: with discovered codes `[0, 1002, 3001]` and
ignore rank 2, code 1002 is ignored; the remap built by lines 298-317 of
src/r.change.stats.py assigns ordinals `[0, 12, 2]` positionally, so the
non-ignored codes receive ordinals `[0, 2]` — ordinal 1 is missing while
ordinal 2 is present, hence the non-ignored ordinals are not the gap-free
initial segment `0..k` the claim asserts. -/
theorem c3_counterexample :
    cats_to_ignore true 2 [0, 1002, 3001] = [1002] ∧
    (remap_table [(0, "No Change"), (1002, "a"), (3001, "b")]
        (cats_to_ignore true 2 [0, 1002, 3001]) true none).map Prod.fst = [0, 12, 2] ∧
    non_ignored_ordinals [(0, "No Change"), (1002, "a"), (3001, "b")]
        (cats_to_ignore true 2 [0, 1002, 3001])
        (remap_table [(0, "No Change"), (1002, "a"), (3001, "b")]
          (cats_to_ignore true 2 [0, 1002, 3001]) true none) = [0, 2] ∧
    (1 : Nat) ∉ non_ignored_ordinals [(0, "No Change"), (1002, "a"), (3001, "b")]
        (cats_to_ignore true 2 [0, 1002, 3001])
        (remap_table [(0, "No Change"), (1002, "a"), (3001, "b")]
          (cats_to_ignore true 2 [0, 1002, 3001]) true none) ∧
    (2 : Nat) ∈ non_ignored_ordinals [(0, "No Change"), (1002, "a"), (3001, "b")]
        (cats_to_ignore true 2 [0, 1002, 3001])
        (remap_table [(0, "No Change"), (1002, "a"), (3001, "b")]
          (cats_to_ignore true 2 [0, 1002, 3001]) true none) ∧
    non_ignored_ordinals [(0, "No Change"), (1002, "a"), (3001, "b")]
        (cats_to_ignore true 2 [0, 1002, 3001])
        (remap_table [(0, "No Change"), (1002, "a"), (3001, "b")]
          (cats_to_ignore true 2 [0, 1002, 3001]) true none) ≠
      List.range (non_ignored_ordinals [(0, "No Change"), (1002, "a"), (3001, "b")]
        (cats_to_ignore true 2 [0, 1002, 3001])
        (remap_table [(0, "No Change"), (1002, "a"), (3001, "b")]
          (cats_to_ignore true 2 [0, 1002, 3001]) true none)).length := by
  decide

/-- Claim C3 (amended): the dense remapper of lines 293-317 of
src/r.change.stats.py assigns to the code at position `i` of the discovered
listing the ordinal `i` — counting ignored codes in the numbering — whenever
that code is not ignored; code 0 (always first in the legend listing)
receives ordinal 0, because `cats_to_ignore` never contains code 0; and when
the ignore feature is off the assigned ordinals are exactly the gap-free
sequence 0, 1, ..., n-1.  (When some discovered code is ignored, the ordinals
of the non-ignored codes keep their positional values and hence may have
gaps; see the counterexample.) -/
theorem c3_positional_ordinals (ovl : List (Nat × String)) (cats_cd : List Nat)
    (niv : Nat) (ign : Bool) (lbl : Option String)
    (hnd : (old_vals ovl).Nodup) :
    (∀ (i c : Nat), (old_vals ovl)[i]? = some c → c ∉ cats_to_ignore ign niv cats_cd →
      (remap_table ovl (cats_to_ignore ign niv cats_cd) ign lbl)[i]?.map Prod.fst = some i) ∧
    ((old_vals ovl)[0]? = some 0 →
      (remap_table ovl (cats_to_ignore ign niv cats_cd) ign lbl)[0]?.map Prod.fst = some 0) ∧
    (ign = false →
      (remap_table ovl (cats_to_ignore ign niv cats_cd) ign lbl).map Prod.fst =
        List.range ovl.length) := by
  have hnonign : ∀ (i c : Nat), (old_vals ovl)[i]? = some c →
      c ∉ cats_to_ignore ign niv cats_cd →
      (remap_table ovl (cats_to_ignore ign niv cats_cd) ign lbl)[i]?.map Prod.fst = some i := by
    intro i c hc hnotin
    have hi' : i < (old_vals ovl).length := by
      by_contra hcon
      rw [List.getElem?_eq_none (by omega)] at hc
      exact Option.noConfusion hc
    have hi : i < ovl.length := by simpa [old_vals] using hi'
    cases ign with
    | false =>
      unfold remap_table
      rw [if_neg (by simp)]
      rw [out_vals_labels_getElem? ovl hi]
      rfl
    | true =>
      rw [remap_table_getElem? ovl _ lbl hnd hc, if_neg hnotin]
      rfl
  refine ⟨hnonign, ?_, ?_⟩
  · intro h0
    exact hnonign 0 0 h0 (zero_not_mem_cats_to_ignore ign niv cats_cd)
  · intro hign
    subst hign
    unfold remap_table
    rw [if_neg (by simp)]
    unfold out_vals_labels
    rw [List.enum_map_fst]
    simp [old_labels]

/-- Claim C3, witness for the amended theorem: in the counterexample
configuration the non-ignored code 3001 at position 2 receives ordinal 2. -/
theorem c3_witness :
    (remap_table [(0, "No Change"), (1002, "a"), (3001, "b")]
      (cats_to_ignore true 2 [0, 1002, 3001]) true none)[2]?.map Prod.fst = some 2 :=
  (c3_positional_ordinals [(0, "No Change"), (1002, "a"), (3001, "b")]
    [0, 1002, 3001] 2 true none (by decide)).1 2 3001 (by decide) (by decide)

/-! ### Claim C4 -/

/-- Claim C4: when the ignore feature is active, every discovered code in the
ignored set is remapped to the one shared sentinel ordinal
`ignore_out_cat = max(out_vals) + 10 = (n-1) + 10` (n the number of discovered
codes), and every non-ignored code keeps its positional ordinal, which is
strictly below the sentinel (lines 298-317 of src/r.change.stats.py). -/
theorem c4_shared_sentinel (ovl : List (Nat × String)) (cti : List Nat)
    (lbl : Option String) (hnd : (old_vals ovl).Nodup) :
    ignore_out_cat ovl.length = (ovl.length - 1) + 10 ∧
    (∀ (i c : Nat), (old_vals ovl)[i]? = some c → c ∈ cti →
      (remap_table ovl cti true lbl)[i]?.map Prod.fst =
        some (ignore_out_cat ovl.length)) ∧
    (∀ (i c : Nat), (old_vals ovl)[i]? = some c → c ∉ cti →
      (remap_table ovl cti true lbl)[i]?.map Prod.fst = some i ∧
        i < ignore_out_cat ovl.length) := by
  have hioc : ignore_out_cat ovl.length = (ovl.length - 1) + 10 := by
    unfold ignore_out_cat out_vals
    rw [list_max_range]
  refine ⟨hioc, ?_, ?_⟩
  · intro i c hc hin
    rw [remap_table_getElem? ovl cti lbl hnd hc, if_pos hin]
    rfl
  · intro i c hc hnotin
    have hi' : i < (old_vals ovl).length := by
      by_contra hcon
      rw [List.getElem?_eq_none (by omega)] at hc
      exact Option.noConfusion hc
    have hi : i < ovl.length := by simpa [old_vals] using hi'
    refine ⟨?_, ?_⟩
    · rw [remap_table_getElem? ovl cti lbl hnd hc, if_neg hnotin]
      rfl
    · rw [hioc]
      omega

/-- Claim C4, witness: with discovered codes `[0, 1002, 3001]` and ignored set
`[1002]`, the ignored code at position 1 gets the sentinel ordinal
`ignore_out_cat 3 = 12` while the non-ignored code at position 0 keeps
ordinal 0 below it. -/
theorem c4_witness :
    (remap_table [(0, "x"), (1002, "a"), (3001, "b")] [1002] true none)[1]?.map Prod.fst =
      some (ignore_out_cat 3) ∧
    ((remap_table [(0, "x"), (1002, "a"), (3001, "b")] [1002] true none)[0]?.map Prod.fst =
      some 0 ∧ 0 < ignore_out_cat 3) :=
  ⟨(c4_shared_sentinel [(0, "x"), (1002, "a"), (3001, "b")] [1002] none (by decide)).2.1
      1 1002 (by decide) (by decide),
   (c4_shared_sentinel [(0, "x"), (1002, "a"), (3001, "b")] [1002] none (by decide)).2.2
      0 0 (by decide) (by decide)⟩

/-! ### Claim C1 -/

/-- Category list of the first input in the rank-overflow scenario: the
1000 distinct categories 1..1000. -/
def overflow_cats_in1 : List ℤ := (List.range 1000).map (fun k => (k : ℤ) + 1)

/-- Category list of the second input in the overflow scenario: the single
category 1001, disjoint from the first input's 1..1000. -/
def overflow_cats_in2 : List ℤ := [(1001 : ℤ)]

/-- The merged, sorted universe of the overflow scenario (1001 distinct
categories, one more than the rank bound 1000 allows). -/
def overflow_universe : List ℤ := all_cats_of overflow_cats_in1 overflow_cats_in2

/-- Claim C1: refuted as a property of the code — the script contains no
fatal collision guard for a merged universe of 1000 or more distinct
categories; this theorem evaluates the code at the failing input.  The
universe `overflow_universe` holds 1001 distinct categories, yet the run
passes its only fatal check (line 137 of src/r.change.stats.py, the input
count) and proceeds to build both reclassification tables, after which the
encoding is no longer collision-free: the distinct category pairs (1001, 1)
and (1, 2) both encode to transition code 2001, which the decoder attributes
to (1, 2) — silent data corruption where the claim asserts a fatal error
raised before any raster write. -/
theorem c1_missing_collision_guard :
    overflow_universe.length = 1001 ∧
    build_reclass_tables ["landuse_t1", "landuse_t2"] overflow_universe =
      Except.ok (new_cats overflow_universe, new_cats_t1000 overflow_universe) ∧
    pixel_code overflow_universe 1001 1 = some 2001 ∧
    pixel_code overflow_universe 1 2 = some 2001 ∧
    (((1001 : ℤ), (1 : ℤ)) : ℤ × ℤ) ≠ ((1 : ℤ), (2 : ℤ)) ∧
    decode_from overflow_universe 2001 = some 1 ∧
    decode_to overflow_universe 2001 = some 2 := by
  have hf : Function.Injective (fun k : ℕ => (k : ℤ) + 1) := by
    intro a b hab
    simp only at hab
    omega
  have happ : overflow_cats_in1 ++ overflow_cats_in2 =
      (List.range 1001).map (fun k : ℕ => (k : ℤ) + 1) := by
    unfold overflow_cats_in1 overflow_cats_in2
    conv_rhs => rw [show (1001 : ℕ) = 1000 + 1 from rfl, List.range_succ, List.map_append]
    congr 1
  have key : overflow_universe = (List.range 1001).map (fun k : ℕ => (k : ℤ) + 1) := by
    unfold overflow_universe all_cats_of
    have hnd : (overflow_cats_in1 ++ overflow_cats_in2).Nodup := by
      rw [happ]
      exact (List.nodup_range 1001).map hf
    have hsort : (overflow_cats_in1 ++ overflow_cats_in2).Sorted (fun a b : ℤ => a ≤ b) := by
      rw [happ]
      exact List.Pairwise.map _ (fun a b hab => by omega) (List.pairwise_lt_range 1001)
    rw [List.dedup_eq_self.mpr hnd, List.Sorted.insertionSort_eq hsort]
    exact happ
  rw [key]
  have hRlen : ((List.range 1001).map (fun k : ℕ => (k : ℤ) + 1)).length = 1001 := by simp
  have hmem : ∀ k : ℕ, k < 1001 →
      ((k : ℤ) + 1) ∈ (List.range 1001).map (fun k : ℕ => (k : ℤ) + 1) :=
    fun k hk => List.mem_map.mpr ⟨k, List.mem_range.mpr hk, rfl⟩
  have hidx : ∀ k : ℕ, k < 1001 →
      ((List.range 1001).map (fun k : ℕ => (k : ℤ) + 1)).indexOf ((k : ℤ) + 1) = k :=
    fun k hk => indexOf_map_range hf hk
  have hm1001 : (1001 : ℤ) ∈ (List.range 1001).map (fun k : ℕ => (k : ℤ) + 1) :=
    List.mem_map.mpr ⟨1000, List.mem_range.mpr (by norm_num), by norm_num⟩
  have hm1 : (1 : ℤ) ∈ (List.range 1001).map (fun k : ℕ => (k : ℤ) + 1) :=
    List.mem_map.mpr ⟨0, List.mem_range.mpr (by norm_num), by norm_num⟩
  have hm2 : (2 : ℤ) ∈ (List.range 1001).map (fun k : ℕ => (k : ℤ) + 1) :=
    List.mem_map.mpr ⟨1, List.mem_range.mpr (by norm_num), by norm_num⟩
  have hi1001 : ((List.range 1001).map (fun k : ℕ => (k : ℤ) + 1)).indexOf (1001 : ℤ) = 1000 := by
    have h := hidx 1000 (by norm_num)
    norm_num at h
    exact h
  have hi1 : ((List.range 1001).map (fun k : ℕ => (k : ℤ) + 1)).indexOf (1 : ℤ) = 0 := by
    have h := hidx 0 (by norm_num)
    norm_num at h
    exact h
  have hi2 : ((List.range 1001).map (fun k : ℕ => (k : ℤ) + 1)).indexOf (2 : ℤ) = 1 := by
    have h := hidx 1 (by norm_num)
    norm_num at h
    exact h
  refine ⟨hRlen, ?_, ?_, ?_, by decide, ?_, ?_⟩
  · unfold build_reclass_tables
    rw [if_neg (by norm_num)]
  · unfold pixel_code
    rw [reclass_rank _ hm1001, reclass_rank_t1000 _ hm1, hi1001, hi1]
    show some (change_expr 1001 1 (1000 + 1) (1000 * (0 + 1))) = some 2001
    rw [change_expr_ne (show (1001 : ℤ) ≠ 1 by norm_num)]
  · unfold pixel_code
    rw [reclass_rank _ hm1, reclass_rank_t1000 _ hm2, hi1, hi2]
    show some (change_expr 1 2 (0 + 1) (1000 * (1 + 1))) = some 2001
    rw [change_expr_ne (show (1 : ℤ) ≠ 2 by norm_num)]
  · unfold decode_from
    rw [show (2001 : ℕ) % 1000 = 1 from by norm_num]
    have hnc : (new_cats ((List.range 1001).map (fun k : ℕ => (k : ℤ) + 1))).indexOf 1 = 0 := by
      have hk0 : (0 : ℕ) < ((List.range 1001).map (fun k : ℕ => (k : ℤ) + 1)).length := by
        rw [hRlen]
        norm_num
      have h := new_cats_indexOf ((List.range 1001).map (fun k : ℕ => (k : ℤ) + 1)) hk0
      norm_num at h
      exact h
    rw [hnc]
    have hg : ((List.range 1001).map (fun k : ℕ => (k : ℤ) + 1))[(0 : ℕ)]? = some 1 := by
      rw [List.getElem?_map, List.getElem?_range (show 0 < 1001 by norm_num)]
      norm_num
    exact hg
  · unfold decode_to
    rw [show ((2001 : ℕ) - 2001 % 1000) / 1000 = 2 from by norm_num]
    have hnc : (new_cats ((List.range 1001).map (fun k : ℕ => (k : ℤ) + 1))).indexOf 2 = 1 := by
      have hk1 : (1 : ℕ) < ((List.range 1001).map (fun k : ℕ => (k : ℤ) + 1)).length := by
        rw [hRlen]
        norm_num
      have h := new_cats_indexOf ((List.range 1001).map (fun k : ℕ => (k : ℤ) + 1)) hk1
      norm_num at h
      exact h
    rw [hnc]
    have hg : ((List.range 1001).map (fun k : ℕ => (k : ℤ) + 1))[(1 : ℕ)]? = some 2 := by
      rw [List.getElem?_map, List.getElem?_range (show 1 < 1001 by norm_num)]
      norm_num
    exact hg

/-! ### Claim C2 -/

/-- Claim C2: for every non-zero transition code produced by the encoding
pipeline from a pixel holding categories `c1` (layer 1) and `c2` (layer 2) of
a universe with fewer than 1000 categories, decoding via
`code mod 1000` / `(code - code mod 1000) / 1000` and mapping the two ranks
back through `new_cats` and `all_cats` (lines 252-266 of
src/r.change.stats.py) recovers exactly the pair `(c1, c2)`. -/
theorem c2_roundtrip_decode (all_cats : List ℤ) (hlen : all_cats.length < 1000)
    {c1 c2 : ℤ} (h1 : c1 ∈ all_cats) (h2 : c2 ∈ all_cats)
    {code : Nat} (henc : pixel_code all_cats c1 c2 = some code) (hnz : code ≠ 0) :
    decode_from all_cats code = some c1 ∧ decode_to all_cats code = some c2 := by
  have hi : all_cats.indexOf c1 < all_cats.length := List.indexOf_lt_length.mpr h1
  have hj : all_cats.indexOf c2 < all_cats.length := List.indexOf_lt_length.mpr h2
  unfold pixel_code at henc
  rw [reclass_rank all_cats h1, reclass_rank_t1000 all_cats h2] at henc
  by_cases heq : c1 = c2
  · exfalso
    subst heq
    have h0 : some (change_expr c1 c1 (all_cats.indexOf c1 + 1)
        (1000 * (all_cats.indexOf c1 + 1))) = some code := henc
    rw [change_expr_self] at h0
    exact hnz (Option.some.inj h0).symm
  · have hcode : some (change_expr c1 c2 (all_cats.indexOf c1 + 1)
        (1000 * (all_cats.indexOf c2 + 1))) = some code := henc
    rw [change_expr_ne heq] at hcode
    have hco : code = (all_cats.indexOf c1 + 1) + 1000 * (all_cats.indexOf c2 + 1) :=
      (Option.some.inj hcode).symm
    subst hco
    constructor
    · have h := decode_from_code all_cats (all_cats.indexOf c2) hi hlen
      rw [List.getElem_indexOf hi] at h
      exact h
    · have h := decode_to_code all_cats (all_cats.indexOf c1) hi hj hlen
      rw [List.getElem_indexOf hj] at h
      exact h

/-- Claim C2, witness: for the universe `[3, 7, 9]` the pixel pair (9, 3)
encodes to code 1003, which decodes back to from-category 9 and
to-category 3. -/
theorem c2_witness :
    decode_from [3, 7, 9] 1003 = some 9 ∧ decode_to [3, 7, 9] 1003 = some 3 :=
  c2_roundtrip_decode [3, 7, 9] (by norm_num)
    (show (9 : ℤ) ∈ [3, 7, 9] by decide) (show (3 : ℤ) ∈ [3, 7, 9] by decide)
    (show pixel_code [3, 7, 9] 9 3 = some 1003 by
      unfold pixel_code
      rw [show reclass [3, 7, 9] (new_cats [3, 7, 9]) 9 = some 3 from by decide,
        show reclass [3, 7, 9] (new_cats_t1000 [3, 7, 9]) 3 = some 1000 from by decide]
      show some (change_expr 9 3 3 1000) = some 1003
      rw [change_expr_ne (show (9 : ℤ) ≠ 3 by norm_num)])
    (show (1003 : ℕ) ≠ 0 by norm_num)

/-! ### Claim C5 -/

/-- Claim C5: the no-change test of the r.mapcalc expression (lines 221-226
of src/r.change.stats.py) is an epsilon comparison of the two original input
values, not of the reclassified rank values: with equal original values the
encoded result is exactly 0 whatever the reclassified cells hold, with
distinct (integer) original values it is always the sum of the two
reclassified cells, and through the whole pipeline a pixel carrying the same
category in both layers encodes to exactly 0. -/
theorem c5_no_change_identity :
    (∀ (v : ℤ) (m1 m2 : Nat), change_expr v v m1 m2 = 0) ∧
    (∀ (v1 v2 : ℤ) (m1 m2 : Nat), v1 ≠ v2 → change_expr v1 v2 m1 m2 = m1 + m2) ∧
    (∀ (all_cats : List ℤ) (v : ℤ), v ∈ all_cats → pixel_code all_cats v v = some 0) := by
  refine ⟨fun v m1 m2 => change_expr_self v m1 m2,
    fun v1 v2 m1 m2 h => change_expr_ne h m1 m2, ?_⟩
  intro all_cats v hv
  unfold pixel_code
  rw [reclass_rank all_cats hv, reclass_rank_t1000 all_cats hv]
  show some (change_expr v v (all_cats.indexOf v + 1)
    (1000 * (all_cats.indexOf v + 1))) = some 0
  rw [change_expr_self]

/-- Claim C5, witness: concrete instances of the three conjuncts. -/
theorem c5_witness :
    change_expr 7 7 3 5000 = 0 ∧ change_expr 2 9 1 3000 = 1 + 3000 ∧
    pixel_code [4, 8] 8 8 = some 0 :=
  ⟨c5_no_change_identity.1 7 3 5000,
   c5_no_change_identity.2.1 2 9 1 3000 (by norm_num),
   c5_no_change_identity.2.2 [4, 8] 8 (by decide)⟩

/-! ### Claim C10 -/

/-- Claim C10: every non-zero code the encoder can produce from a universe of
fewer than 1000 categories (`code = fr + 1000 * tr`, ranks in 1..N) decodes
without failure: `code mod 1000` equals `fr` and is never 0, the quotient
equals `tr`, and both `.index`/subscript lookups of lines 261-266 of
src/r.change.stats.py succeed (the decoder result is `some`, the failure
branch is unreachable). -/
theorem c10_decoder_lookups_succeed (all_cats : List ℤ)
    (hlen : all_cats.length < 1000) {fr tr : Nat}
    (hfr1 : 1 ≤ fr) (hfr2 : fr ≤ all_cats.length)
    (htr1 : 1 ≤ tr) (htr2 : tr ≤ all_cats.length) :
    (fr + 1000 * tr) % 1000 = fr ∧
    (fr + 1000 * tr) % 1000 ≠ 0 ∧
    (fr + 1000 * tr - (fr + 1000 * tr) % 1000) / 1000 = tr ∧
    (decode_from all_cats (fr + 1000 * tr)).isSome = true ∧
    (decode_to all_cats (fr + 1000 * tr)).isSome = true := by
  have hfr1000 : fr < 1000 := by omega
  have hkf : fr - 1 < all_cats.length := by omega
  have hkt : tr - 1 < all_cats.length := by omega
  refine ⟨code_mod tr hfr1000, ?_, code_div tr hfr1000, ?_, ?_⟩
  · rw [code_mod tr hfr1000]
    omega
  · unfold decode_from
    rw [code_mod tr hfr1000, show fr = (fr - 1) + 1 from by omega,
      new_cats_indexOf all_cats hkf, List.getElem?_eq_getElem hkf]
    rfl
  · unfold decode_to
    rw [code_div tr hfr1000, show tr = (tr - 1) + 1 from by omega,
      new_cats_indexOf all_cats hkt, List.getElem?_eq_getElem hkt]
    rfl

/-- Claim C10, witness: ranks 2 and 3 of a three-category universe. -/
theorem c10_witness :
    (2 + 1000 * 3) % 1000 = 2 ∧
    (2 + 1000 * 3) % 1000 ≠ 0 ∧
    (2 + 1000 * 3 - (2 + 1000 * 3) % 1000) / 1000 = 3 ∧
    (decode_from [10, 20, 30] (2 + 1000 * 3)).isSome = true ∧
    (decode_to [10, 20, 30] (2 + 1000 * 3)).isSome = true :=
  c10_decoder_lookups_succeed [10, 20, 30] (by norm_num)
    (by norm_num) (by norm_num) (by norm_num) (by norm_num)

/-! ### Claim C6 -/

/-- Claim C6, counterexample: the label check of lines 170-172 of
src/r.change.stats.py only compares the count of distinct labels with the
count of distinct categories, so a two-directionally ambiguous pairing
passes it: with layer 1 labelling category 5 "clouds" and 6 "water" and
layer 2 labelling 5 "water" and 6 "clouds", label mode stays enabled
(`(true, [])`, no warning) although category 5 carries two different labels
in the combined pair set — the pairing is not injective, contradicting the
claim that label mode is enabled only for an injective pairing. -/
theorem c6_counterexample :
    label_step true [((5 : ℤ), some "clouds"), ((6 : ℤ), some "water")]
        [((5 : ℤ), some "water"), ((6 : ℤ), some "clouds")] = (true, []) ∧
    ((5 : ℤ), "clouds") ∈ labellist [((5 : ℤ), "clouds"), ((6 : ℤ), "water")]
        [((5 : ℤ), "water"), ((6 : ℤ), "clouds")] ∧
    ((5 : ℤ), "water") ∈ labellist [((5 : ℤ), "clouds"), ((6 : ℤ), "water")]
        [((5 : ℤ), "water"), ((6 : ℤ), "clouds")] ∧
    ("clouds" : String) ≠ "water" := by
  decide

/-- Claim C6 (amended): label mode is enabled only if the flag is set, both
layers expose complete labels, and the count of distinct labels equals the
count of distinct categories across the deduplicated combined pair set (a
necessary but not sufficient condition for two-way injectivity); any
label-reading failure or count mismatch disables label mode with a warning,
and the label step never aborts (its type is total, lines 162-194 of
src/r.change.stats.py). -/
theorem c6_label_mode_count_test :
    (∀ (flag : Bool) (tmp1 tmp2 : List (ℤ × Option String)),
      (label_step flag tmp1 tmp2).1 = true →
        flag = true ∧ ∃ l1 l2, read_labels tmp1 = some l1 ∧ read_labels tmp2 = some l2 ∧
          ambiguous (labellist l1 l2) = false) ∧
    (∀ (tmp1 tmp2 : List (ℤ × Option String)),
      read_labels tmp1 = none ∨ read_labels tmp2 = none →
        label_step true tmp1 tmp2 = (false,
          ["Input rasters are not (entirely) labelled, using raster categories for result raster labels"])) ∧
    (∀ (tmp1 tmp2 : List (ℤ × Option String)) (l1 l2 : List (ℤ × String)),
      read_labels tmp1 = some l1 → read_labels tmp2 = some l2 →
      ambiguous (labellist l1 l2) = true →
        label_step true tmp1 tmp2 = (false,
          ["Input raster labels are ambiguous,using raster categories for result raster labels"])) := by
  refine ⟨?_, ?_, ?_⟩
  · intro flag tmp1 tmp2 h
    cases flag with
    | false => simp [label_step] at h
    | true =>
      refine ⟨rfl, ?_⟩
      unfold label_step at h
      rw [if_pos rfl] at h
      cases h1 : read_labels tmp1 with
      | none => rw [h1] at h; simp at h
      | some l1 =>
        cases h2 : read_labels tmp2 with
        | none => rw [h1, h2] at h; simp at h
        | some l2 =>
          rw [h1, h2] at h
          by_cases hamb : ambiguous (labellist l1 l2) = true
          · have h' : (if ambiguous (labellist l1 l2) then
                ((false : Bool), ["Input raster labels are ambiguous,using raster categories for result raster labels"])
                else (true, [])).1 = true := h
            rw [if_pos hamb] at h'
            simp at h'
          · exact ⟨l1, l2, rfl, rfl, by simpa using hamb⟩
  · intro tmp1 tmp2 h
    unfold label_step
    rw [if_pos rfl]
    rcases h with h | h
    · rw [h]
    · rw [h]
      cases h1 : read_labels tmp1 with
      | none => rfl
      | some l1 => rfl
  · intro tmp1 tmp2 l1 l2 h1 h2 hamb
    unfold label_step
    rw [if_pos rfl, h1, h2]
    show (if ambiguous (labellist l1 l2) then
        ((false : Bool), ["Input raster labels are ambiguous,using raster categories for result raster labels"])
        else (true, [])) = _
    rw [if_pos hamb]

/-- Claim C6, witness for the amended theorem: a clean labelling enables
label mode; a missing label and a count mismatch each disable it with the
respective warning. -/
theorem c6_witness :
    (true = true ∧ ∃ l1 l2, read_labels [((1 : ℤ), some "a")] = some l1 ∧
      read_labels [((2 : ℤ), some "b")] = some l2 ∧ ambiguous (labellist l1 l2) = false) ∧
    label_step true [((1 : ℤ), none)] [((2 : ℤ), some "b")] = (false,
      ["Input rasters are not (entirely) labelled, using raster categories for result raster labels"]) ∧
    label_step true [((1 : ℤ), some "a"), ((2 : ℤ), some "a")] [] = (false,
      ["Input raster labels are ambiguous,using raster categories for result raster labels"]) :=
  ⟨c6_label_mode_count_test.1 true [((1 : ℤ), some "a")] [((2 : ℤ), some "b")] (by decide),
   c6_label_mode_count_test.2.1 [((1 : ℤ), none)] [((2 : ℤ), some "b")] (Or.inl (by decide)),
   c6_label_mode_count_test.2.2 [((1 : ℤ), some "a"), ((2 : ℤ), some "a")] []
     [((1 : ℤ), "a"), ((2 : ℤ), "a")] [] (by decide) (by decide) (by decide)⟩

/-! ### Claim C7 -/

/-- Claim C7: when the designated ignore value is absent from both inputs'
category lists, the check of lines 154-160 of src/r.change.stats.py emits a
warning (never a fatal error — the step's type is total) and leaves
`ignore_val_exists = False`, after which every guarded ignore feature is a
no-op: no transition code is collected as ignored, the dense remap performs
no sentinel override, and the color table gets no near-white entry. -/
theorem c7_ignore_absent_noop (cats_in1 cats_in2 : List ℤ) (str_val : ℤ)
    (h1 : str_val ∉ cats_in1) (h2 : str_val ∉ cats_in2) :
    ignore_check cats_in1 cats_in2 str_val =
      (false, ["Value to ignore (" ++ toString str_val ++ ") does not exist in input maps"]) ∧
    (∀ (niv : Nat) (cats_cd : List Nat),
      cats_to_ignore (ignore_check cats_in1 cats_in2 str_val).1 niv cats_cd = []) ∧
    (∀ (ovl : List (Nat × String)) (cti : List Nat) (lbl : Option String),
      remap_table ovl cti (ignore_check cats_in1 cats_in2 str_val).1 lbl =
        out_vals_labels ovl) ∧
    (∀ (sent : Nat) (colors_tmp : List (Nat × String)),
      colors_new (ignore_check cats_in1 cats_in2 str_val).1 sent colors_tmp =
        ((0 : Nat), "200:200:200") :: colors_tmp) := by
  have hic : ignore_check cats_in1 cats_in2 str_val =
      (false, ["Value to ignore (" ++ toString str_val ++ ") does not exist in input maps"]) := by
    unfold ignore_check
    rw [if_neg]
    rintro (h | h)
    exacts [h1 h, h2 h]
  refine ⟨hic, ?_, ?_, ?_⟩
  · intro niv cats_cd
    rw [hic]
    show cats_to_ignore false niv cats_cd = []
    apply List.filter_eq_nil_iff.mpr
    intro a _
    simp
  · intro ovl cti lbl
    rw [hic]
    show remap_table ovl cti false lbl = out_vals_labels ovl
    unfold remap_table
    rw [if_neg (by simp)]
  · intro sent colors_tmp
    rw [hic]
    show colors_new false sent colors_tmp = ((0 : Nat), "200:200:200") :: colors_tmp
    simp [colors_new]

/-- Claim C7, witness: ignore value 4 absent from inputs with categories
`[1, 2]` and `[3]`. -/
theorem c7_witness :
    ignore_check [1, 2] [3] 4 =
      (false, ["Value to ignore (" ++ toString (4 : ℤ) ++ ") does not exist in input maps"]) ∧
    cats_to_ignore (ignore_check [1, 2] [3] 4).1 7 [0, 1002] = [] ∧
    remap_table [(0, "x")] [] (ignore_check [1, 2] [3] 4).1 none = out_vals_labels [(0, "x")] ∧
    colors_new (ignore_check [1, 2] [3] 4).1 12 [(1, "9:9:9")] =
      ((0 : Nat), "200:200:200") :: [(1, "9:9:9")] :=
  have h := c7_ignore_absent_noop [1, 2] [3] 4 (by decide) (by decide)
  ⟨h.1, h.2.1 7 [0, 1002], h.2.2.1 [(0, "x")] [] none, h.2.2.2 12 [(1, "9:9:9")]⟩

/-! ### Claim C8 -/

/-- Claim C8: with statistics requested and a file path given, the persisted
table is the fixed header line `raster value|label|percentage of covered
area` followed, unchanged, by the pipe-delimited `value|label|percentage`
rows the external statistics collaborator produced, one per category value
present (lines 340-361 of src/r.change.stats.py). -/
theorem c8_stats_table_format (stats : List (Nat × String × String)) :
    stats_file (r_stats_rows stats) =
      "raster value|label|percentage of covered area" ::
        stats.map (fun s => toString s.1 ++ "|" ++ s.2.1 ++ "|" ++ s.2.2) := rfl

/-! ### Claim C9 -/

/-- The combined (category, label) pair set carries at most one label per
category: the property under which the first-match lookups of lines 268-275
of src/r.change.stats.py are insensitive to the enumeration order of the
Python set. -/
def pair_functional (P : List (ℤ × String)) : Prop :=
  ∀ p ∈ P, ∀ q ∈ P, p.1 = q.1 → p.2 = q.2

theorem lookup_label_of_mem {P : List (ℤ × String)} (hf : pair_functional P)
    {c : ℤ} {l : String} (hcl : (c, l) ∈ P) : lookup_label P c = l := by
  have hmem : c ∈ P.map Prod.fst := List.mem_map.mpr ⟨(c, l), hcl, rfl⟩
  have hi : (P.map Prod.fst).indexOf c < (P.map Prod.fst).length :=
    List.indexOf_lt_length.mpr hmem
  have hiP : (P.map Prod.fst).indexOf c < P.length := by simpa using hi
  have hi2 : (P.map Prod.fst).indexOf c < (P.map Prod.snd).length := by simpa using hiP
  have hfst : (P.map Prod.fst)[(P.map Prod.fst).indexOf c] = c := List.getElem_indexOf hi
  rw [List.getElem_map] at hfst
  unfold lookup_label
  rw [List.getD_eq_getElem _ "" hi2, List.getElem_map]
  exact hf _ (List.getElem_mem hiP) (c, l) hcl hfst

theorem lookup_label_perm_invariant {P Q : List (ℤ × String)} (hf : pair_functional P)
    (hperm : P.Perm Q) (c : ℤ) : lookup_label P c = lookup_label Q c := by
  have hfQ : pair_functional Q := fun p hp q hq hpq =>
    hf p (hperm.mem_iff.mpr hp) q (hperm.mem_iff.mpr hq) hpq
  by_cases hc : c ∈ P.map Prod.fst
  · obtain ⟨p, hp, hpc⟩ := List.mem_map.mp hc
    have hclP : (c, p.2) ∈ P := by
      have he : (c, p.2) = p := by rw [← hpc]
      rw [he]
      exact hp
    have hclQ : (c, p.2) ∈ Q := hperm.mem_iff.mp hclP
    rw [lookup_label_of_mem hf hclP, lookup_label_of_mem hfQ hclQ]
  · have hcQ : c ∉ Q.map Prod.fst := fun hcon => hc ((hperm.map Prod.fst).mem_iff.mpr hcon)
    unfold lookup_label
    rw [List.indexOf_eq_length.mpr hc, List.indexOf_eq_length.mpr hcQ,
      List.getD_eq_default _ _ (by simp), List.getD_eq_default _ _ (by simp)]

/-- Claim C9 (amended): the run is a pure function of its inputs and of the
enumeration orders returned by the collaborators; in particular the legend
construction of lines 250-281 of src/r.change.stats.py gives identical text
across two enumerations of the same label set whenever every category carries
a single label in the combined pair set.  (When a category carries two labels
— which the count check can fail to detect — different enumeration orders of
the Python set on line 168 can produce different legend text across two runs;
see the counterexample.) -/
theorem c9_legend_perm_invariance (all_cats : List ℤ) (cats_cd : List Nat) (labels : Bool)
    {P Q : List (ℤ × String)} (hf : pair_functional P) (hperm : P.Perm Q) :
    cd_labels all_cats labels P cats_cd = cd_labels all_cats labels Q cats_cd := by
  unfold cd_labels
  congr 1
  apply List.map_congr_left
  intro item _
  unfold cd_label_of
  cases labels with
  | false => rfl
  | true => simp only [lookup_label_perm_invariant hf hperm]

/-- Claim C9, counterexample: with the two-directionally ambiguous labelling
that passes the count check (see the C6 analysis), two enumerations of the
same combined label set — both permutations of the pair set the run builds —
yield different legend text for the same present transition codes, so two
runs with identical inputs are not guaranteed identical output. -/
theorem c9_order_dependent_legend :
    let l1 : List (ℤ × String) := [(5, "clouds"), (6, "water")]
    let l2 : List (ℤ × String) := [(5, "water"), (6, "clouds")]
    let P1 : List (ℤ × String) := [(5, "clouds"), (5, "water"), (6, "clouds"), (6, "water")]
    let P2 : List (ℤ × String) := [(5, "water"), (5, "clouds"), (6, "water"), (6, "clouds")]
    label_step true [((5 : ℤ), some "clouds"), ((6 : ℤ), some "water")]
        [((5 : ℤ), some "water"), ((6 : ℤ), some "clouds")] = (true, []) ∧
    P1.Perm (labellist l1 l2) ∧
    P2.Perm (labellist l1 l2) ∧
    cd_labels [5, 6] true P1 [0, 2001] ≠ cd_labels [5, 6] true P2 [0, 2001] := by
  intro l1 l2 P1 P2
  refine ⟨by decide, by decide, by decide, by decide⟩

/-- Claim C9, witness for the amended theorem: with one label per category
the legend is the same for two enumeration orders of the label set. -/
theorem c9_witness :
    cd_labels [5, 6] true [((5 : ℤ), "A"), ((6 : ℤ), "B")] [0, 2001] =
      cd_labels [5, 6] true [((6 : ℤ), "B"), ((5 : ℤ), "A")] [0, 2001] :=
  c9_legend_perm_invariance [5, 6] [0, 2001] true
    (by unfold pair_functional; decide) (by decide)

end RChangeStats
